import Mathlib

/-!
Verification of the easy-hook in-browser frame-splicing pipeline
(`src/app/composables/useWebCodecsProcessor.ts`).

The embedding models JavaScript number arithmetic on timestamps and
durations with exact rationals (`ℚ`); integer quantities (frame counts,
loop indices, pixel sizes) are `ℕ`/`ℤ`.  Fallible operations are
`Except String`, mirroring promise rejection with the message
strings (apostrophes appear as the escape \x27).  Asynchronous external
outcomes (decoder faults, strategy failures, audio events) are supplied
as explicit environment values, and the body of `processVideo` is
embedded as a total function from that environment to a run trace
recording the outcome, the frames submitted to the encoder, the
resource-release calls, and the error ref.
-/

namespace EasyHook

/-- ProcessingOptions from the source (width, height, frameDuration in
seconds, fps).  `fps` is optional in the source with default 30; the
merged record always carries a value, so it is total here. -/
structure ProcessingOptions where
  width : ℕ
  height : ℕ
  frameDuration : ℚ
  fps : ℕ
deriving DecidableEq

/-- DEFAULT_OPTIONS from the source: 720 × 1280, 1 second hook, 30 fps. -/
def DEFAULT_OPTIONS : ProcessingOptions :=
  { width := 720, height := 1280, frameDuration := 1, fps := 30 }

/-- validity of ProcessingOptions per the spec data model: all positive. -/
def ValidOptions (o : ProcessingOptions) : Prop :=
  0 < o.width ∧ 0 < o.height ∧ 0 < o.frameDuration ∧ 0 < o.fps

instance (o : ProcessingOptions) : Decidable (ValidOptions o) := by
  unfold ValidOptions; infer_instance

/-- JavaScript Math.round on an exact rational: floor (x + 1/2). -/
def jsRound (q : ℚ) : ℤ := ⌊q + 1 / 2⌋

/-- hookFrameCount = Math.round(frameDuration * fps) (source line 664). -/
def hookFrameCount (o : ProcessingOptions) : ℤ :=
  jsRound (o.frameDuration * (o.fps : ℚ))

/-- microseconds per frame as the source computes it: 1000000 / fps.
For fps = 30 this is 100000/3, not an integer. -/
def frameMicros (fps : ℕ) : ℚ := 1000000 / (fps : ℚ)

/-- JavaScript value in the `duration` slot of a decoded VideoFrame:
null, undefined, or a number. -/
inductive JSDuration where
  | null : JSDuration
  | undefined : JSDuration
  | value : ℚ → JSDuration
deriving DecidableEq

/-- duration placed into frameOptions (source lines 804-813): the field
is set only when `frame.duration !== null && frame.duration !== undefined`,
otherwise it is omitted (`none`).  An explicit 0 passes through. -/
def submittedDuration : JSDuration → Option ℚ
  | JSDuration.null => none
  | JSDuration.undefined => none
  | JSDuration.value v => some v

/-- a decoded original frame as the splicing loop consumes it:
presentation timestamp in microseconds and the raw duration slot. -/
structure DecodedFrame where
  timestamp : ℚ
  duration : JSDuration
deriving DecidableEq

/-- one frame submission to the VideoEncoder: the timestamp and duration
carried by the VideoFrame handed to `encode`, and the keyFrame flag of
the encode options (absent options ⇒ `false`). -/
structure EncoderSubmission where
  timestamp : ℚ
  duration : Option ℚ
  keyFrame : Bool
deriving DecidableEq

/-- hook frame i as constructed in the loop at source lines 779-787:
timestamp i * (1000000 / fps), duration 1000000 / fps, encoded with
keyFrame: i === 0. -/
def hookSubmission (o : ProcessingOptions) (i : ℕ) : EncoderSubmission :=
  { timestamp := (i : ℚ) * frameMicros o.fps
  , duration := some (frameMicros o.fps)
  , keyFrame := i == 0 }

/-- the full hook segment: the loop runs for i in [0, hookFrameCount). -/
def hookSubmissions (o : ProcessingOptions) : List EncoderSubmission :=
  (List.range (hookFrameCount o).toNat).map (hookSubmission o)

/-- shift applied to every original timestamp:
hookFrameCount * (1000000 / fps) (source line 792). -/
def hookShift (o : ProcessingOptions) : ℚ :=
  (hookFrameCount o : ℚ) * frameMicros o.fps

/-- re-created frame for one decoded original frame (source lines
790-817): adjusted timestamp, duration propagated per
`submittedDuration`, encoded without options so keyFrame is false. -/
def spliceSubmission (o : ProcessingOptions) (f : DecodedFrame) : EncoderSubmission :=
  { timestamp := f.timestamp + hookShift o
  , duration := submittedDuration f.duration
  , keyFrame := false }

/-- the original-frame segment, in decode arrival order. -/
def spliceSubmissions (o : ProcessingOptions) (frames : List DecodedFrame) :
    List EncoderSubmission :=
  frames.map (spliceSubmission o)

/-- decoded bitmap abstracted to its pixel dimensions. -/
structure ImageBitmap where
  width : ℕ
  height : ℕ
deriving DecidableEq

/-- message thrown by convertHeicToJpeg when both conversion libraries
fail (source lines 242-245): a header followed by the accumulated
per-method messages joined with newlines. -/
def heicConversionFailedMessage (libheifMsg heic2anyMsg : String) : String :=
  "Impossible de convertir l\x27image HEIC. Toutes les méthodes ont échoué:\n" ++
    ("Méthode libheif-js: " ++ (libheifMsg ++ ("\nMéthode heic2any: " ++ heic2anyMsg)))

/-- convertHeicToJpeg (source lines 91-248): try libheif-js first, then
heic2any; the internal failure points of each strategy (decode, canvas
context, blob conversion) are abstracted into its Except outcome.  When
both fail the combined message is thrown. -/
def convertHeicToJpeg (libheifR heic2anyR : Except String ImageBitmap) :
    Except String ImageBitmap :=
  match libheifR with
  | Except.ok img => Except.ok img
  | Except.error e1 =>
    match heic2anyR with
    | Except.ok img => Except.ok img
    | Except.error e2 => Except.error (heicConversionFailedMessage e1 e2)

/-- message thrown by loadImage when the conversion stage, the native
decode and the data-URL round trip have all failed (source lines
394-398). -/
def heicAllFailedMessage (conversionMsg nativeMsg dataUrlMsg : String) : String :=
  "Impossible de traiter l\x27image HEIC. Toutes les méthodes ont échoué:\n1. Conversion avec heic2any: " ++
    (conversionMsg ++ ("\n2. Support natif du navigateur: " ++
      (nativeMsg ++ ("\n3. Méthode Data URL: " ++
        (dataUrlMsg ++
          "\nVeuillez essayer avec une image au format JPG ou PNG, ou convertir votre image HEIC avant de l\x27importer.")))))

/-- loadImage on a HEIC/HEIF file (source lines 255-401): the conversion
stage (libheif-js then heic2any) first, then native createImageBitmap,
then the data-URL round trip through an Image element; the final
rejection carries the accumulated history of all failures. -/
def loadImageHeic (libheifR heic2anyR nativeR dataUrlR : Except String ImageBitmap) :
    Except String ImageBitmap :=
  match convertHeicToJpeg libheifR heic2anyR with
  | Except.ok img => Except.ok img
  | Except.error conversionMsg =>
    match nativeR with
    | Except.ok img => Except.ok img
    | Except.error nativeMsg =>
      match dataUrlR with
      | Except.ok img => Except.ok img
      | Except.error dataUrlMsg =>
        Except.error (heicAllFailedMessage conversionMsg nativeMsg dataUrlMsg)

/-- substring containment on the character data of strings. -/
def ContainsMsg (sub s : String) : Prop := sub.data <:+: s.data

/-- one track as mp4box reports it: the codec tag and the optional avcC
configuration record, abstracted to its bytes. -/
structure Mp4Track where
  codec : String
  avcC : Option (List ℕ)
deriving DecidableEq

/-- parsed container structure: the track list of the onReady info. -/
structure Mp4Info where
  tracks : List Mp4Track
deriving DecidableEq

/-- JavaScript String.prototype.startsWith, modelled on character data. -/
def strStartsWith (s pre : String) : Bool := pre.data.isPrefixOf s.data

/-- rejection message of extractAvcDescriptionFromMp4 (source line 579). -/
def avcDescriptionMissingMsg : String :=
  "Impossible de trouver la description AVC (SPS/PPS) dans le MP4."

/-- extractAvcDescriptionFromMp4 (source lines 541-592): on mp4box
onReady, pick the first track whose codec starts with avc1; reject when
there is none or when that track has no avcC record; otherwise resolve
with the record bytes. -/
def extractAvcDescription (info : Mp4Info) : Except String (List ℕ) :=
  match info.tracks.find? (fun t => strStartsWith t.codec "avc1") with
  | none => Except.error avcDescriptionMissingMsg
  | some t =>
    match t.avcC with
    | none => Except.error avcDescriptionMissingMsg
    | some buf => Except.ok buf

/-- VideoDecoderConfig as assembled at source lines 737-742. -/
structure VideoDecoderConfig where
  codec : String
  codedWidth : ℕ
  codedHeight : ℕ
  description : Option (List ℕ)
deriving DecidableEq

/-- decoder configuration built at source lines 734-742: the await of
extractAvcDescriptionFromMp4 carries `.catch(() => undefined)`, so a
rejection is swallowed and the description field is simply omitted from
the config. -/
def decoderConfigFor (videoWidth videoHeight : ℕ) (info : Mp4Info) : VideoDecoderConfig :=
  { codec := "avc1.4d401f"
  , codedWidth := videoWidth
  , codedHeight := videoHeight
  , description := (extractAvcDescription info).toOption }

/-- audio payload type; extractAudio never actually produces one. -/
structure AudioData where
  bytes : List ℕ
deriving DecidableEq

/-- the external event that settles the promise inside extractAudio:
the video element fails to load, no audio track is detected, the capture
setup throws, or the recorder stops with the collected chunks. -/
inductive AudioEnv where
  | loadError : AudioEnv
  | noAudioTracks : AudioEnv
  | captureThrew : String → AudioEnv
  | captured : List (List ℕ) → AudioEnv
deriving DecidableEq

/-- extractAudio (source lines 466-538): every settling path calls
resolve(null) — including the branch that did record audio chunks, which
builds an audio blob and then still resolves null (placeholder, source
lines 500-507).  The executor never calls reject. -/
def extractAudio : AudioEnv → Except String (Option AudioData)
  | AudioEnv.loadError => Except.ok none
  | AudioEnv.noAudioTracks => Except.ok none
  | AudioEnv.captureThrew _ => Except.ok none
  | AudioEnv.captured chunks =>
    if 0 < chunks.length then Except.ok none else Except.ok none

/-- state of a WebCodecs VideoDecoder as the polling loop observes it. -/
inductive DecoderState where
  | unconfigured : DecoderState
  | configured : DecoderState
  | closed : DecoderState
deriving DecidableEq

/-- the checkDecoding polling loop (source lines 764-773) run against
the decoder state observed at each 100 ms tick, with explicit fuel:
some t when the closed state is first observed at tick t, none when the
fuel runs out with the loop still rescheduling itself. -/
def checkDecoding (trace : ℕ → DecoderState) : ℕ → ℕ → Option ℕ
  | 0, _ => none
  | fuel + 1, t =>
    if trace t = DecoderState.closed then some t
    else checkDecoding trace fuel (t + 1)

/-- the decode-completion promise resolves iff the polling succeeds for
some finite fuel. -/
def DecodeWaitResolves (trace : ℕ → DecoderState) : Prop :=
  ∃ fuel, (checkDecoding trace fuel 1).isSome

/-- target of one explicit release call made by processVideo:
hookFrame.close, newFrame.close, bitmap.close, frame.close (the decoded
frame), videoDecoder.close, videoEncoder.close. -/
inductive CloseTarget where
  | hookFrame : ℕ → CloseTarget
  | newFrame : ℕ → CloseTarget
  | bitmap : ℕ → CloseTarget
  | decodedFrame : ℕ → CloseTarget
  | decoder : CloseTarget
  | encoder : CloseTarget
deriving DecidableEq

/-- environment of one processVideo run: every external outcome the body
branches on.  decodedFrames are the frames the decoder output callback
delivered before the completion wait; decoderFault is the message of the
decoder error callback if it fired; encoderFaultAt is the index of the
first encode call on which the (by then errored and closed) encoder
throws; ctxAvailable is whether the OffscreenCanvas 2d context exists. -/
structure PipelineEnv where
  webCodecsSupported : Bool
  imageLoad : Except String Unit
  videoWidth : ℕ
  videoHeight : ℕ
  mp4Info : Mp4Info
  decodedFrames : List DecodedFrame
  decoderFault : Option String
  encoderFaultAt : Option ℕ
  ctxAvailable : Bool
  audioEnv : AudioEnv

/-- how a processVideo run ends: the returned promise resolves, rejects,
or never settles (the completion wait polls forever). -/
inductive RunOutcome where
  | resolved : RunOutcome
  | rejected : String → RunOutcome
  | hangs : RunOutcome
deriving DecidableEq

/-- observable trace of one run: outcome, the decoder configuration that
was applied, whether compressed data was fed to the decoder, the frames
submitted to the encoder, the release calls in order, the audio result,
and the final value of the error ref. -/
structure RunTrace where
  outcome : RunOutcome
  decoderConfig : Option VideoDecoderConfig
  decodeAttempted : Bool
  submissions : List EncoderSubmission
  closes : List CloseTarget
  audioData : Option AudioData
  errorRef : Option String

/-- accumulator of the two encode loops: submissions so far and release
calls so far. -/
structure LoopAcc where
  subs : List EncoderSubmission
  closes : List CloseTarget
deriving DecidableEq

/-- whether the k-th encode call throws: from the fault index on, the
encoder is closed, so every call from that index throws. -/
def encodeThrows (faultAt : Option ℕ) (k : ℕ) : Bool :=
  match faultAt with
  | none => false
  | some j => j ≤ k

/-- hook-frame loop (source lines 779-787) with n iterations left and
current index i: on a throwing encode the VideoFrame just built is not
closed and the exception aborts the loop; otherwise the frame is encoded
and closed. -/
def runHookLoop (o : ProcessingOptions) (faultAt : Option ℕ) :
    ℕ → ℕ → LoopAcc → Except LoopAcc LoopAcc
  | 0, _, acc => Except.ok acc
  | n + 1, i, acc =>
    if encodeThrows faultAt i then Except.error acc
    else runHookLoop o faultAt n (i + 1)
      { subs := acc.subs ++ [hookSubmission o i]
      , closes := acc.closes ++ [CloseTarget.hookFrame i] }

/-- original-frame loop (source lines 790-825) over the remaining
decoded frames, with j the frame index and k the running encode-call
index.  With a 2d context: re-render, create bitmap and new frame,
encode (a throw leaves newFrame, bitmap and the decoded frame unclosed),
then close newFrame, bitmap and the decoded frame.  Without a context
the frame is skipped with a warning and only the decoded frame is
closed. -/
def runOriginalLoop (o : ProcessingOptions) (faultAt : Option ℕ) (ctx : Bool) :
    List DecodedFrame → ℕ → ℕ → LoopAcc → Except LoopAcc LoopAcc
  | [], _, _, acc => Except.ok acc
  | f :: rest, j, k, acc =>
    if ctx then
      if encodeThrows faultAt k then Except.error acc
      else runOriginalLoop o faultAt ctx rest (j + 1) (k + 1)
        { subs := acc.subs ++ [spliceSubmission o f]
        , closes := acc.closes ++
            [CloseTarget.newFrame j, CloseTarget.bitmap j, CloseTarget.decodedFrame j] }
    else
      runOriginalLoop o faultAt ctx rest (j + 1) k
        { acc with closes := acc.closes ++ [CloseTarget.decodedFrame j] }

/-- NOT_SUPPORTED message (source line 39). -/
def NOT_SUPPORTED_MSG : String := "WebCodecs API n\x27est pas supporté par votre navigateur."

/-- stand-in for the DOMException text of an encode call on a closed
encoder; the claims depend only on it naming a rejection. -/
def ENCODE_THROW_MSG : String := "InvalidStateError: encode on closed VideoEncoder"

/-- stand-in for the DOMException text of videoDecoder.close() on a
codec that is already closed (per WebCodecs, Close runs Reset, which
throws InvalidStateError when the state is closed); the claims depend
only on it naming a rejection distinct from the decode-error message. -/
def DECODER_CLOSE_THROW_MSG : String :=
  "InvalidStateError: close on closed VideoDecoder"

/-- accumulator carried by a loop result, whether it returned normally
or aborted with a throw. -/
def accOf : Except LoopAcc LoopAcc → LoopAcc
  | Except.ok a => a
  | Except.error a => a

/-- decoder state over the ticks of the completion wait: the code itself
calls videoDecoder.close() only after the wait (source line 858), so the
decoder is closed at this point only when the error callback fired (a
decoder fault closes the decoder per WebCodecs); otherwise it stays
configured at every tick. -/
def decoderStateTrace (env : PipelineEnv) : ℕ → DecoderState :=
  fun t =>
    match env.decoderFault with
    | some _ => if t = 0 then DecoderState.configured else DecoderState.closed
    | none => DecoderState.configured

/-- processVideo (source lines 630-873) as a function from options and
run environment to the observable run trace.  The catch block (source
lines 866-872) only resets progress and stores the message: it closes
nothing.  The completion wait resolves only when the decoder reached the
closed state, which before line 858 happens only through a decoder
fault; without one the run never passes the wait (outcome hangs).  When
the run does pass the wait, the decoder is therefore already closed, so
the explicit videoDecoder.close() at line 858 throws InvalidStateError
(per WebCodecs, Close on a closed codec throws): control jumps to the
catch block, videoEncoder.close() at line 859 never executes, the catch
overwrites the error ref with the thrown message, and the promise
rejects without returning the assembled blob. -/
def processVideoRun (o : ProcessingOptions) (env : PipelineEnv) : RunTrace :=
  if env.webCodecsSupported = false then
    { outcome := RunOutcome.rejected NOT_SUPPORTED_MSG
    , decoderConfig := none, decodeAttempted := false
    , submissions := [], closes := [], audioData := none
    , errorRef := some NOT_SUPPORTED_MSG }
  else
    match env.imageLoad with
    | Except.error msg =>
      { outcome := RunOutcome.rejected msg
      , decoderConfig := none, decodeAttempted := false
      , submissions := [], closes := [], audioData := none
      , errorRef := some msg }
    | Except.ok _ =>
      let cfg := decoderConfigFor env.videoWidth env.videoHeight env.mp4Info
      match env.decoderFault with
      | none =>
        { outcome := RunOutcome.hangs
        , decoderConfig := some cfg, decodeAttempted := true
        , submissions := [], closes := [], audioData := none
        , errorRef := none }
      | some _dmsg =>
        match runHookLoop o env.encoderFaultAt (hookFrameCount o).toNat 0 ⟨[], []⟩ with
        | Except.error acc =>
          { outcome := RunOutcome.rejected ENCODE_THROW_MSG
          , decoderConfig := some cfg, decodeAttempted := true
          , submissions := acc.subs, closes := acc.closes, audioData := none
          , errorRef := some ENCODE_THROW_MSG }
        | Except.ok acc =>
          match runOriginalLoop o env.encoderFaultAt env.ctxAvailable
              env.decodedFrames 0 (hookFrameCount o).toNat acc with
          | Except.error acc2 =>
            { outcome := RunOutcome.rejected ENCODE_THROW_MSG
            , decoderConfig := some cfg, decodeAttempted := true
            , submissions := acc2.subs, closes := acc2.closes, audioData := none
            , errorRef := some ENCODE_THROW_MSG }
          | Except.ok acc2 =>
            match extractAudio env.audioEnv with
            | Except.error amsg =>
              { outcome := RunOutcome.rejected amsg
              , decoderConfig := some cfg, decodeAttempted := true
              , submissions := acc2.subs, closes := acc2.closes, audioData := none
              , errorRef := some amsg }
            | Except.ok audio =>
              { outcome := RunOutcome.rejected DECODER_CLOSE_THROW_MSG
              , decoderConfig := some cfg, decodeAttempted := true
              , submissions := acc2.subs
              , closes := acc2.closes
              , audioData := audio
              , errorRef := some DECODER_CLOSE_THROW_MSG }

/-- release calls issued by a fault-free original-frame loop starting at
frame index j, for a given number of frames. -/
def originalCloses : ℕ → ℕ → List CloseTarget
  | _, 0 => []
  | j, n + 1 =>
    [CloseTarget.newFrame j, CloseTarget.bitmap j, CloseTarget.decodedFrame j] ++
      originalCloses (j + 1) n

/-- release calls of a run whose two encode loops complete without an
encoder fault: each hook frame once, then newFrame/bitmap/decoded frame
once per original frame.  No codec handle appears: the decoder is closed
by its fault rather than by a release call (the explicit close throws)
and the encoder is never closed. -/
def loopCloses (o : ProcessingOptions) (nF : ℕ) : List CloseTarget :=
  (List.range (hookFrameCount o).toNat).map CloseTarget.hookFrame ++
    originalCloses 0 nF

/-- a container whose only video track is AVC with an avcC record. -/
def sampleAvcInfo : Mp4Info :=
  { tracks := [{ codec := "avc1.4d401f", avcC := some [1, 2, 3] }] }

/-- a container with a single non-AVC track and no avcC record. -/
def noAvcInfo : Mp4Info :=
  { tracks := [{ codec := "hvc1.1.6.L93.B0", avcC := none }] }

/-- a run whose decoder never faults: nothing ever closes the decoder
before the completion wait. -/
def faultFreeEnv : PipelineEnv :=
  { webCodecsSupported := true, imageLoad := Except.ok ()
  , videoWidth := 1280, videoHeight := 720, mp4Info := sampleAvcInfo
  , decodedFrames := [], decoderFault := none, encoderFaultAt := none
  , ctxAvailable := true, audioEnv := AudioEnv.noAudioTracks }

/-- a run whose decoder reports a fault after delivering one frame and
whose encoder works: the pipeline then runs to the end. -/
def decoderFaultEnv : PipelineEnv :=
  { webCodecsSupported := true, imageLoad := Except.ok ()
  , videoWidth := 1280, videoHeight := 720, mp4Info := sampleAvcInfo
  , decodedFrames := [{ timestamp := 0, duration := JSDuration.null }]
  , decoderFault := some "fault simulé", encoderFaultAt := none
  , ctxAvailable := true, audioEnv := AudioEnv.noAudioTracks }

/-- like decoderFaultEnv, but the encoder throws on its very first
encode call: the run rejects out of the hook loop. -/
def leakEnv : PipelineEnv :=
  { webCodecsSupported := true, imageLoad := Except.ok ()
  , videoWidth := 1280, videoHeight := 720, mp4Info := sampleAvcInfo
  , decodedFrames := [{ timestamp := 0, duration := JSDuration.null }]
  , decoderFault := some "fault simulé", encoderFaultAt := some 0
  , ctxAvailable := true, audioEnv := AudioEnv.noAudioTracks }

/-- a run on a container with no matching AVC track. -/
def noAvcEnv : PipelineEnv :=
  { webCodecsSupported := true, imageLoad := Except.ok ()
  , videoWidth := 1280, videoHeight := 720, mp4Info := noAvcInfo
  , decodedFrames := [], decoderFault := some "fault simulé"
  , encoderFaultAt := none, ctxAvailable := true
  , audioEnv := AudioEnv.noAudioTracks }

end EasyHook

namespace EasyHook

/-- hookFrameCount for the defaults: Math.round(1 * 30) = 30. -/
theorem hookFrameCount_default : hookFrameCount DEFAULT_OPTIONS = 30 := by
  norm_num [hookFrameCount, jsRound, DEFAULT_OPTIONS]

/-- the default hook segment has 30 frames. -/
theorem hookSubs_default_length : (hookSubmissions DEFAULT_OPTIONS).length = 30 := by
  simp [hookSubmissions, hookFrameCount_default]

/-- hook frame i of the list is the loop-body frame for index i. -/
theorem hookSubmissions_get (o : ProcessingOptions) (i : ℕ)
    (h : i < (hookSubmissions o).length) :
    (hookSubmissions o).get ⟨i, h⟩ = hookSubmission o i := by
  simp [hookSubmissions]

theorem zero_lt_default_hook_len : 0 < (hookSubmissions DEFAULT_OPTIONS).length := by
  rw [hookSubs_default_length]; norm_num

theorem one_lt_default_hook_len : 1 < (hookSubmissions DEFAULT_OPTIONS).length := by
  rw [hookSubs_default_length]; norm_num

/-- C1: the claim asserts that with fps = 30 and frameDuration = 1 every
pair of consecutive hook timestamps differs by exactly 33333 µs.  In the
code the gap is 1000000 / 30 = 100000/3 µs, which is not 33333: here the
gap between hook frames 1 and 0 of the actual submission list. -/
theorem C1_counterexample :
    (hookSubmissions DEFAULT_OPTIONS).length = 30 ∧
    ¬ (((hookSubmissions DEFAULT_OPTIONS).get ⟨1, one_lt_default_hook_len⟩).timestamp -
        ((hookSubmissions DEFAULT_OPTIONS).get ⟨0, zero_lt_default_hook_len⟩).timestamp
        = 33333) := by
  refine ⟨hookSubs_default_length, ?_⟩
  rw [hookSubmissions_get, hookSubmissions_get]
  norm_num [hookSubmission, frameMicros, DEFAULT_OPTIONS]

/-- C1 (amended): for every valid ProcessingOptions the hook segment has
round(frameDuration × fps) frames, hook frame i carries timestamp
i × (1000000 / fps) µs and duration 1000000 / fps µs; for fps = 30 and
frameDuration = 1 the count is 30 and consecutive timestamps differ by
exactly 1000000 / 30 = 100000/3 µs (≈ 33333.33), not 33333 µs. -/
theorem C1_hook_segment (o : ProcessingOptions) (_hv : ValidOptions o) :
    (hookSubmissions o).length = (hookFrameCount o).toNat ∧
    (∀ i (h : i < (hookSubmissions o).length),
      ((hookSubmissions o).get ⟨i, h⟩).timestamp = (i : ℚ) * (1000000 / (o.fps : ℚ)) ∧
      ((hookSubmissions o).get ⟨i, h⟩).duration = some (1000000 / (o.fps : ℚ))) ∧
    (o.fps = 30 → o.frameDuration = 1 →
      (hookSubmissions o).length = 30 ∧
      ∀ i (h : i + 1 < (hookSubmissions o).length),
        ((hookSubmissions o).get ⟨i + 1, h⟩).timestamp -
          ((hookSubmissions o).get ⟨i, Nat.lt_of_succ_lt h⟩).timestamp = 100000 / 3) := by
  refine ⟨by simp [hookSubmissions], ?_, ?_⟩
  · intro i h
    rw [hookSubmissions_get]
    exact ⟨rfl, rfl⟩
  · intro hfps hdur
    have hlen : (hookSubmissions o).length = 30 := by
      norm_num [hookSubmissions, hookFrameCount, jsRound, hfps, hdur]
      rfl
    refine ⟨hlen, ?_⟩
    intro i h
    rw [hookSubmissions_get, hookSubmissions_get]
    simp only [hookSubmission, hfps, frameMicros]
    push_cast
    ring

/-- C1 witness: the amended statement instantiated at the defaults. -/
theorem C1_hook_segment_witness :
    (hookSubmissions DEFAULT_OPTIONS).length = (hookFrameCount DEFAULT_OPTIONS).toNat ∧
    (hookSubmissions DEFAULT_OPTIONS).length = 30 :=
  ⟨(C1_hook_segment DEFAULT_OPTIONS (by decide)).1,
   ((C1_hook_segment DEFAULT_OPTIONS (by decide)).2.2 rfl rfl).1⟩

/-- C2: every original frame is re-submitted at
T + hookFrameCount × (1000000 / fps), a constant shift, so the spliced
timestamps of any two original frames differ exactly as the original
timestamps do. -/
theorem C2_splice_shift : ∀ (o : ProcessingOptions) (f g : DecodedFrame),
    (spliceSubmission o f).timestamp =
      f.timestamp + (hookFrameCount o : ℚ) * (1000000 / (o.fps : ℚ)) ∧
    (spliceSubmission o f).timestamp - (spliceSubmission o g).timestamp =
      f.timestamp - g.timestamp := by
  intro o f g
  constructor
  · rfl
  · simp only [spliceSubmission]
    ring

/-- C5: in the submitted streams exactly hook frame 0 carries the
keyFrame flag: hook frames are encoded with keyFrame: i === 0 and
original frames are encoded with no options, so their flag is false. -/
theorem C5_keyframe_flag : ∀ (o : ProcessingOptions) (frames : List DecodedFrame),
    (∀ i (h : i < (hookSubmissions o).length),
        (((hookSubmissions o).get ⟨i, h⟩).keyFrame = true ↔ i = 0)) ∧
    (∀ j (h : j < (spliceSubmissions o frames).length),
        ((spliceSubmissions o frames).get ⟨j, h⟩).keyFrame = false) := by
  intro o frames
  constructor
  · intro i h
    rw [hookSubmissions_get]
    simp [hookSubmission]
  · intro j h
    simp [spliceSubmissions, spliceSubmission]

/-- C5 witness: at the defaults, hook frame 0 is flagged and hook frame 1
is not. -/
theorem C5_keyframe_flag_witness :
    ((hookSubmissions DEFAULT_OPTIONS).get ⟨0, zero_lt_default_hook_len⟩).keyFrame = true ∧
    ((hookSubmissions DEFAULT_OPTIONS).get ⟨1, one_lt_default_hook_len⟩).keyFrame ≠ true := by
  constructor
  · exact ((C5_keyframe_flag DEFAULT_OPTIONS []).1 0 zero_lt_default_hook_len).mpr rfl
  · intro hc
    exact absurd (((C5_keyframe_flag DEFAULT_OPTIONS []).1 1 one_lt_default_hook_len).mp hc)
      (by norm_num)

theorem containsMsg_first (x b : String) : ContainsMsg x (x ++ b) :=
  ⟨[], b.data, by simp⟩

theorem containsMsg_last (a x : String) : ContainsMsg x (a ++ x) :=
  ⟨a.data, [], by simp⟩

theorem containsMsg_trans {x s t : String} (h1 : ContainsMsg x s)
    (h2 : ContainsMsg s t) : ContainsMsg x t :=
  List.IsInfix.trans h1 h2

/-- both method messages occur inside the conversion-failure message. -/
theorem convMessage_contains (e1 e2 : String) :
    ContainsMsg e1 (heicConversionFailedMessage e1 e2) ∧
    ContainsMsg e2 (heicConversionFailedMessage e1 e2) := by
  unfold heicConversionFailedMessage
  constructor
  · exact containsMsg_trans (containsMsg_first e1 _)
      (containsMsg_trans (containsMsg_last _ _) (containsMsg_last _ _))
  · exact containsMsg_trans (containsMsg_last _ e2)
      (containsMsg_trans (containsMsg_last _ _)
        (containsMsg_trans (containsMsg_last _ _) (containsMsg_last _ _)))

/-- the three stage messages occur inside the final rejection message. -/
theorem heicMessage_contains (c n d : String) :
    ContainsMsg c (heicAllFailedMessage c n d) ∧
    ContainsMsg n (heicAllFailedMessage c n d) ∧
    ContainsMsg d (heicAllFailedMessage c n d) := by
  unfold heicAllFailedMessage
  refine ⟨?_, ?_, ?_⟩
  · exact containsMsg_trans (containsMsg_first c _) (containsMsg_last _ _)
  · exact containsMsg_trans (containsMsg_first n _)
      (containsMsg_trans (containsMsg_last _ _)
        (containsMsg_trans (containsMsg_last _ _) (containsMsg_last _ _)))
  · exact containsMsg_trans (containsMsg_first d _)
      (containsMsg_trans (containsMsg_last _ _)
        (containsMsg_trans (containsMsg_last _ _)
          (containsMsg_trans (containsMsg_last _ _)
            (containsMsg_trans (containsMsg_last _ _) (containsMsg_last _ _)))))

/-- C6: when all four HEIC strategies fail, loadImage rejects with the
accumulated message in which each of the four individual failure
messages occurs; and it rejects only when no strategy succeeded. -/
theorem C6_heic_strategy_cascade :
    (∀ e1 e2 e3 e4 : String,
      loadImageHeic (Except.error e1) (Except.error e2) (Except.error e3)
          (Except.error e4) =
        Except.error
          (heicAllFailedMessage (heicConversionFailedMessage e1 e2) e3 e4) ∧
      ContainsMsg e1 (heicAllFailedMessage (heicConversionFailedMessage e1 e2) e3 e4) ∧
      ContainsMsg e2 (heicAllFailedMessage (heicConversionFailedMessage e1 e2) e3 e4) ∧
      ContainsMsg e3 (heicAllFailedMessage (heicConversionFailedMessage e1 e2) e3 e4) ∧
      ContainsMsg e4 (heicAllFailedMessage (heicConversionFailedMessage e1 e2) e3 e4)) ∧
    (∀ r1 r2 r3 r4 m, loadImageHeic r1 r2 r3 r4 = Except.error m →
      r1.isOk = false ∧ r2.isOk = false ∧ r3.isOk = false ∧ r4.isOk = false) := by
  constructor
  · intro e1 e2 e3 e4
    have hc := heicMessage_contains (heicConversionFailedMessage e1 e2) e3 e4
    have hin := convMessage_contains e1 e2
    exact ⟨rfl, containsMsg_trans hin.1 hc.1, containsMsg_trans hin.2 hc.1,
      hc.2.1, hc.2.2⟩
  · intro r1 r2 r3 r4 m h
    cases r1 <;> cases r2 <;> cases r3 <;> cases r4 <;>
      simp_all [loadImageHeic, convertHeicToJpeg, Except.isOk, Except.toBool]

/-- C6 witness: the cascade instantiated at four concrete failure
messages. -/
theorem C6_heic_strategy_cascade_witness :
    loadImageHeic (Except.error "libheif KO") (Except.error "heic2any KO")
        (Except.error "natif KO") (Except.error "dataURL KO") =
      Except.error (heicAllFailedMessage
        (heicConversionFailedMessage "libheif KO" "heic2any KO") "natif KO" "dataURL KO") ∧
    ContainsMsg "libheif KO" (heicAllFailedMessage
      (heicConversionFailedMessage "libheif KO" "heic2any KO") "natif KO" "dataURL KO") ∧
    ContainsMsg "heic2any KO" (heicAllFailedMessage
      (heicConversionFailedMessage "libheif KO" "heic2any KO") "natif KO" "dataURL KO") ∧
    ContainsMsg "natif KO" (heicAllFailedMessage
      (heicConversionFailedMessage "libheif KO" "heic2any KO") "natif KO" "dataURL KO") ∧
    ContainsMsg "dataURL KO" (heicAllFailedMessage
      (heicConversionFailedMessage "libheif KO" "heic2any KO") "natif KO" "dataURL KO") ∧
    (Except.error "libheif KO" : Except String ImageBitmap).isOk = false := by
  have h := C6_heic_strategy_cascade.1 "libheif KO" "heic2any KO" "natif KO" "dataURL KO"
  have h2 := C6_heic_strategy_cascade.2 (Except.error "libheif KO")
    (Except.error "heic2any KO") (Except.error "natif KO") (Except.error "dataURL KO")
    _ h.1
  exact ⟨h.1, h.2.1, h.2.2.1, h.2.2.2.1, h.2.2.2.2, h2.1⟩

/-- C9: a decoded frame whose duration slot is null or undefined yields a
re-created frame with the duration field omitted, while an explicit 0 is
passed through as 0. -/
theorem C9_duration_propagation : ∀ (o : ProcessingOptions) (T : ℚ),
    (spliceSubmission o { timestamp := T, duration := JSDuration.null }).duration = none ∧
    (spliceSubmission o { timestamp := T, duration := JSDuration.undefined }).duration = none ∧
    (spliceSubmission o { timestamp := T, duration := JSDuration.value 0 }).duration = some 0 ∧
    ∀ v, (spliceSubmission o { timestamp := T, duration := JSDuration.value v }).duration
      = some v := by
  intro o T
  exact ⟨rfl, rfl, rfl, fun v => rfl⟩

/-- a fault-free hook loop encodes and closes every frame in order. -/
theorem runHookLoop_no_fault (o : ProcessingOptions) :
    ∀ (n i : ℕ) (acc : LoopAcc),
      runHookLoop o none n i acc =
        Except.ok ⟨acc.subs ++ (List.range' i n).map (hookSubmission o),
                   acc.closes ++ (List.range' i n).map CloseTarget.hookFrame⟩ := by
  intro n
  induction n with
  | zero => intro i acc; simp [runHookLoop, List.range']
  | succ n ih =>
    intro i acc
    rw [runHookLoop, if_neg (by simp [encodeThrows]), ih]
    simp [List.range'_succ]

/-- a fault-free original loop with a 2d context encodes every frame and
closes newFrame, bitmap and the decoded frame for each. -/
theorem runOriginalLoop_no_fault (o : ProcessingOptions) :
    ∀ (frames : List DecodedFrame) (j k : ℕ) (acc : LoopAcc),
      runOriginalLoop o none true frames j k acc =
        Except.ok ⟨acc.subs ++ frames.map (spliceSubmission o),
                   acc.closes ++ originalCloses j frames.length⟩ := by
  intro frames
  induction frames with
  | nil => intro j k acc; simp [runOriginalLoop, originalCloses]
  | cons f rest ih =>
    intro j k acc
    rw [runOriginalLoop, if_pos rfl, if_neg (by simp [encodeThrows]), ih]
    simp [originalCloses, List.append_assoc]

/-- extractAudio resolves null on every settling event. -/
theorem extractAudio_eq_none : ∀ e : AudioEnv, extractAudio e = Except.ok none := by
  intro e
  cases e <;> simp [extractAudio]

/-- trace of a run that passes the support and image stages with a
decoder fault, a working encoder and an available 2d context: the loops
complete (hook segment then spliced original frames, every per-frame
release call performed), but the run then rejects at cleanup because
videoDecoder.close() throws on the already fault-closed decoder, and
the error ref ends up holding the close error. -/
theorem processVideoRun_past_wait (o : ProcessingOptions) (env : PipelineEnv) (m : String)
    (hs : env.webCodecsSupported = true)
    (him : env.imageLoad = Except.ok ())
    (hf : env.decoderFault = some m)
    (he : env.encoderFaultAt = none)
    (hctx : env.ctxAvailable = true) :
    processVideoRun o env =
      { outcome := RunOutcome.rejected DECODER_CLOSE_THROW_MSG
      , decoderConfig :=
          some (decoderConfigFor env.videoWidth env.videoHeight env.mp4Info)
      , decodeAttempted := true
      , submissions := hookSubmissions o ++ spliceSubmissions o env.decodedFrames
      , closes := loopCloses o env.decodedFrames.length
      , audioData := none
      , errorRef := some DECODER_CLOSE_THROW_MSG } := by
  unfold processVideoRun
  simp only [hs, him, hf, he, hctx, runHookLoop_no_fault, runOriginalLoop_no_fault,
    extractAudio_eq_none, Bool.true_eq_false, if_false]
  simp [hookSubmissions, spliceSubmissions, loopCloses, List.range_eq_range']

/-- C10: extractAudio settles every run by resolving null — it never
rejects, and it resolves null even when audio chunks were recorded — so
no run trace ever carries audio data and the deliverable blob is
assembled from the encoded video chunks alone. -/
theorem C10_audio_always_null :
    (∀ e : AudioEnv, extractAudio e = Except.ok none) ∧
    (∀ (o : ProcessingOptions) (env : PipelineEnv),
      (processVideoRun o env).audioData = none) := by
  refine ⟨extractAudio_eq_none, ?_⟩
  intro o env
  unfold processVideoRun
  repeat' split
  all_goals try rfl
  rename_i audio heq
  rw [extractAudio_eq_none] at heq
  cases heq
  rfl

/-- C4: the claim says a decoder fault surfaces as a DecodeError that
aborts the pipeline.  Here a run whose decoder faulted does reject, but
with the InvalidStateError thrown by videoDecoder.close() at cleanup,
not with the decode-error message: the stored decode error is
overwritten, so the fault never surfaces as a DecodeError. -/
theorem C4_counterexample :
    decoderFaultEnv.decoderFault = some "fault simulé" ∧
    (processVideoRun DEFAULT_OPTIONS decoderFaultEnv).outcome =
      RunOutcome.rejected DECODER_CLOSE_THROW_MSG ∧
    (processVideoRun DEFAULT_OPTIONS decoderFaultEnv).outcome ≠
      RunOutcome.rejected ("Erreur de décodage: " ++ "fault simulé") ∧
    (processVideoRun DEFAULT_OPTIONS decoderFaultEnv).errorRef ≠
      some ("Erreur de décodage: " ++ "fault simulé") := by
  have h := processVideoRun_past_wait DEFAULT_OPTIONS decoderFaultEnv "fault simulé"
    rfl rfl rfl rfl rfl
  rw [h]
  refine ⟨rfl, rfl, ?_, ?_⟩ <;> simp [DECODER_CLOSE_THROW_MSG]

/-- C4 (amended): a decoder fault is not surfaced as a DecodeError
rejection: the error callback only logs and stores the decode message,
the pipeline keeps encoding, and the run then rejects with the
InvalidStateError thrown by videoDecoder.close() on the already
fault-closed decoder, which overwrites the stored decode message; no
blob is returned and the run never resolves. -/
theorem C4_decoder_fault_not_surfaced (o : ProcessingOptions) (env : PipelineEnv)
    (m : String) (hs : env.webCodecsSupported = true)
    (him : env.imageLoad = Except.ok ()) (hf : env.decoderFault = some m)
    (he : env.encoderFaultAt = none) (hctx : env.ctxAvailable = true) :
    (processVideoRun o env).outcome = RunOutcome.rejected DECODER_CLOSE_THROW_MSG ∧
    (processVideoRun o env).errorRef = some DECODER_CLOSE_THROW_MSG ∧
    (processVideoRun o env).outcome ≠ RunOutcome.resolved := by
  rw [processVideoRun_past_wait o env m hs him hf he hctx]
  exact ⟨rfl, rfl, by simp⟩

/-- C4 witness: the amended statement at the concrete faulting run. -/
theorem C4_decoder_fault_not_surfaced_witness :
    (processVideoRun DEFAULT_OPTIONS decoderFaultEnv).outcome =
      RunOutcome.rejected DECODER_CLOSE_THROW_MSG ∧
    (processVideoRun DEFAULT_OPTIONS decoderFaultEnv).errorRef =
      some DECODER_CLOSE_THROW_MSG ∧
    (processVideoRun DEFAULT_OPTIONS decoderFaultEnv).outcome ≠ RunOutcome.resolved :=
  C4_decoder_fault_not_surfaced DEFAULT_OPTIONS decoderFaultEnv "fault simulé"
    rfl rfl rfl rfl rfl

/-- polling a decoder that stays configured never produces a result. -/
theorem checkDecoding_const_configured :
    ∀ fuel t, checkDecoding (fun _ => DecoderState.configured) fuel t = none := by
  intro fuel
  induction fuel with
  | zero => intro t; rfl
  | succ n ih => intro t; simp [checkDecoding, ih]

/-- when the polling resolves, some tick at or after the start observed
the closed state. -/
theorem checkDecoding_eq_some (trace : ℕ → DecoderState) :
    ∀ fuel start t, checkDecoding trace fuel start = some t →
      trace t = DecoderState.closed ∧ start ≤ t := by
  intro fuel
  induction fuel with
  | zero => intro start t h; simp [checkDecoding] at h
  | succ n ih =>
    intro start t h
    rw [checkDecoding] at h
    by_cases hc : trace start = DecoderState.closed
    · rw [if_pos hc] at h
      injection h with h
      subst h
      exact ⟨hc, le_refl _⟩
    · rw [if_neg hc] at h
      obtain ⟨h1, h2⟩ := ih (start + 1) t h
      exact ⟨h1, by omega⟩

/-- when some tick within the fuel window observes the closed state, the
polling resolves. -/
theorem checkDecoding_isSome_of_closed (trace : ℕ → DecoderState) :
    ∀ fuel start t, start ≤ t → t < start + fuel →
      trace t = DecoderState.closed → (checkDecoding trace fuel start).isSome = true := by
  intro fuel
  induction fuel with
  | zero => intro start t h1 h2 _; omega
  | succ n ih =>
    intro start t h1 h2 hc
    rw [checkDecoding]
    by_cases hs : trace start = DecoderState.closed
    · rw [if_pos hs]; rfl
    · rw [if_neg hs]
      rcases Nat.eq_or_lt_of_le h1 with he | hl
      · exact absurd (he ▸ hc) hs
      · exact ih (start + 1) t hl (by omega) hc

/-- C8: the claim says the completion wait terminates for every input,
but the loop only stops on the closed state and nothing closes the
decoder before this point in a fault-free run: here such a run, whose
wait polls forever and whose outcome is hangs. -/
theorem C8_counterexample :
    faultFreeEnv.decoderFault = none ∧
    ¬ DecodeWaitResolves (decoderStateTrace faultFreeEnv) ∧
    (processVideoRun DEFAULT_OPTIONS faultFreeEnv).outcome = RunOutcome.hangs := by
  refine ⟨rfl, ?_, rfl⟩
  have htr : decoderStateTrace faultFreeEnv = fun _ => DecoderState.configured := by
    funext t; rfl
  rw [htr]
  rintro ⟨fuel, hfu⟩
  rw [checkDecoding_const_configured] at hfu
  simp at hfu

/-- C8 (amended): the completion wait is not bounded: it resolves
exactly when some polling tick observes the closed decoder state; in a
run that passes the earlier stages without a decoder fault the decoder
stays configured, the wait never resolves and the run hangs. -/
theorem C8_wait_unbounded (trace : ℕ → DecoderState) (o : ProcessingOptions)
    (env : PipelineEnv) (hs : env.webCodecsSupported = true)
    (him : env.imageLoad = Except.ok ()) (hf : env.decoderFault = none) :
    (DecodeWaitResolves trace ↔ ∃ t, 1 ≤ t ∧ trace t = DecoderState.closed) ∧
    ¬ DecodeWaitResolves (decoderStateTrace env) ∧
    (processVideoRun o env).outcome = RunOutcome.hangs := by
  refine ⟨⟨?_, ?_⟩, ?_, ?_⟩
  · rintro ⟨fuel, hfu⟩
    obtain ⟨t, ht⟩ := Option.isSome_iff_exists.mp hfu
    obtain ⟨h1, h2⟩ := checkDecoding_eq_some trace fuel 1 t ht
    exact ⟨t, h2, h1⟩
  · rintro ⟨t, h1, h2⟩
    exact ⟨t, checkDecoding_isSome_of_closed trace t 1 t h1 (by omega) h2⟩
  · have htr : decoderStateTrace env = fun _ => DecoderState.configured := by
      funext t; simp [decoderStateTrace, hf]
    rw [htr]
    rintro ⟨fuel, hfu⟩
    rw [checkDecoding_const_configured] at hfu
    simp at hfu
  · unfold processVideoRun
    simp only [hs, him, hf, Bool.true_eq_false, if_false]

/-- C8 witness: the amended statement at a concrete fault-free run and
the constantly-closed trace. -/
theorem C8_wait_unbounded_witness :
    (DecodeWaitResolves (fun _ => DecoderState.closed) ↔
      ∃ t, 1 ≤ t ∧ (fun _ : ℕ => DecoderState.closed) t = DecoderState.closed) ∧
    ¬ DecodeWaitResolves (decoderStateTrace faultFreeEnv) ∧
    (processVideoRun DEFAULT_OPTIONS faultFreeEnv).outcome = RunOutcome.hangs := by
  have h := C8_wait_unbounded (fun _ => DecoderState.closed) DEFAULT_OPTIONS
    faultFreeEnv rfl rfl rfl
  exact ⟨h.1, h.2.1, h.2.2⟩

/-- extractAvcDescriptionFromMp4 has a single rejection message. -/
theorem extractAvcDescription_error_msg (info : Mp4Info) (e : String)
    (h : extractAvcDescription info = Except.error e) : e = avcDescriptionMissingMsg := by
  unfold extractAvcDescription at h
  split at h
  · injection h with h
    exact h.symm
  · split at h
    · injection h with h
      exact h.symm
    · cases h

/-- once the support check and image stage pass, the decoder is always
configured (with whatever description survived the swallowed extraction)
and compressed data is always fed to it. -/
theorem processVideoRun_decode_phase (o : ProcessingOptions) (env : PipelineEnv)
    (hs : env.webCodecsSupported = true) (him : env.imageLoad = Except.ok ()) :
    (processVideoRun o env).decoderConfig =
      some (decoderConfigFor env.videoWidth env.videoHeight env.mp4Info) ∧
    (processVideoRun o env).decodeAttempted = true := by
  unfold processVideoRun
  simp only [hs, him, Bool.true_eq_false, if_false]
  repeat' split
  all_goals exact ⟨rfl, rfl⟩

/-- C3: the claim says a container without a matching AVC track makes
the pipeline raise ContainerParseError before any decode attempt.  Here
a container with no avc1 track: the extraction rejects, yet the run
configures the decoder with no description and feeds it data; the run
never rejects with the ContainerParseError message — it fails only much
later, at the cleanup close, for an unrelated reason. -/
theorem C3_counterexample :
    extractAvcDescription noAvcInfo = Except.error avcDescriptionMissingMsg ∧
    (processVideoRun DEFAULT_OPTIONS noAvcEnv).decodeAttempted = true ∧
    (processVideoRun DEFAULT_OPTIONS noAvcEnv).decoderConfig =
      some { codec := "avc1.4d401f", codedWidth := 1280, codedHeight := 720,
             description := none } ∧
    (processVideoRun DEFAULT_OPTIONS noAvcEnv).outcome =
      RunOutcome.rejected DECODER_CLOSE_THROW_MSG ∧
    (processVideoRun DEFAULT_OPTIONS noAvcEnv).outcome ≠
      RunOutcome.rejected avcDescriptionMissingMsg := by
  have h := processVideoRun_past_wait DEFAULT_OPTIONS noAvcEnv "fault simulé"
    rfl rfl rfl rfl rfl
  rw [h]
  refine ⟨rfl, rfl, rfl, rfl, ?_⟩
  simp [DECODER_CLOSE_THROW_MSG, avcDescriptionMissingMsg]

/-- C3 (amended): extractAvcDescriptionFromMp4 itself rejects (with its
single ContainerParseError message) when no avc1 track with an avcC
record is found, but processVideo swallows the rejection with
`.catch(() => undefined)`: the decoder is configured with the
description field omitted and data is fed to it anyway. -/
theorem C3_parse_error_swallowed (info : Mp4Info) (w h : ℕ) (o : ProcessingOptions)
    (env : PipelineEnv) (e : String)
    (herr : extractAvcDescription info = Except.error e)
    (hs : env.webCodecsSupported = true) (him : env.imageLoad = Except.ok ())
    (hinfo : env.mp4Info = info) (hw : env.videoWidth = w) (hh : env.videoHeight = h) :
    e = avcDescriptionMissingMsg ∧
    (decoderConfigFor w h info).description = none ∧
    (processVideoRun o env).decoderConfig =
      some { codec := "avc1.4d401f", codedWidth := w, codedHeight := h,
             description := none } ∧
    (processVideoRun o env).decodeAttempted = true := by
  have hdesc : (extractAvcDescription info).toOption = none := by
    rw [herr]; rfl
  have hd := processVideoRun_decode_phase o env hs him
  refine ⟨extractAvcDescription_error_msg info e herr, ?_, ?_, hd.2⟩
  · simp [decoderConfigFor, hdesc]
  · rw [hd.1, hinfo, hw, hh]
    simp [decoderConfigFor, hdesc]

/-- membership in the original-loop release list: exactly the newFrame,
bitmap and decodedFrame targets with index in the window. -/
theorem mem_originalCloses : ∀ (n s : ℕ) (x : CloseTarget),
    x ∈ originalCloses s n ↔
      ∃ j, s ≤ j ∧ j < s + n ∧
        (x = CloseTarget.newFrame j ∨ x = CloseTarget.bitmap j ∨
          x = CloseTarget.decodedFrame j) := by
  intro n
  induction n with
  | zero =>
    intro s x
    simp only [originalCloses, List.not_mem_nil, false_iff, not_exists]
    rintro j ⟨h1, h2, _⟩
    omega
  | succ n ih =>
    intro s x
    simp only [originalCloses, List.cons_append, List.nil_append, List.mem_cons, ih]
    constructor
    · rintro (h | h | h | ⟨j, h1, h2, h3⟩)
      · exact ⟨s, le_refl s, by omega, Or.inl h⟩
      · exact ⟨s, le_refl s, by omega, Or.inr (Or.inl h)⟩
      · exact ⟨s, le_refl s, by omega, Or.inr (Or.inr h)⟩
      · exact ⟨j, by omega, by omega, h3⟩
    · rintro ⟨j, h1, h2, h3⟩
      by_cases hj : j = s
      · subst hj
        rcases h3 with h | h | h
        · exact Or.inl h
        · exact Or.inr (Or.inl h)
        · exact Or.inr (Or.inr (Or.inl h))
      · exact Or.inr (Or.inr (Or.inr ⟨j, by omega, by omega, h3⟩))

/-- the original-loop release list never repeats a target. -/
theorem originalCloses_nodup : ∀ (n s : ℕ), (originalCloses s n).Nodup := by
  intro n
  induction n with
  | zero => intro s; simp [originalCloses]
  | succ n ih =>
    intro s
    simp only [originalCloses, List.cons_append, List.nil_append, List.nodup_cons,
      List.mem_cons, mem_originalCloses]
    refine ⟨?_, ?_, ?_, ih (s + 1)⟩
    · push_neg
      refine ⟨by simp, by simp, ?_⟩
      intro j h1 h2
      exact ⟨by simp; omega, by simp, by simp⟩
    · push_neg
      refine ⟨by simp, ?_⟩
      intro j h1 h2
      exact ⟨by simp, by simp; omega, by simp⟩
    · push_neg
      intro j h1 h2
      exact ⟨by simp, by simp, by simp; omega⟩

/-- the loop release list never repeats a target. -/
theorem loopCloses_nodup (o : ProcessingOptions) (nF : ℕ) :
    (loopCloses o nF).Nodup := by
  unfold loopCloses
  rw [List.nodup_append]
  refine ⟨?_, originalCloses_nodup nF 0, ?_⟩
  · exact List.Nodup.map (fun a b h => by injection h) (List.nodup_range _)
  · intro x hx hmem
    obtain ⟨i, _, rfl⟩ := List.mem_map.mp hx
    rw [mem_originalCloses] at hmem
    obtain ⟨j, _, _, h3⟩ := hmem
    rcases h3 with h | h | h <;> simp at h

/-- any release recorded by the hook loop beyond its starting
accumulator targets a hook frame. -/
theorem runHookLoop_closes_shape (o : ProcessingOptions) (fa : Option ℕ) :
    ∀ (n i : ℕ) (acc : LoopAcc) (r : CloseTarget),
      r ∈ (accOf (runHookLoop o fa n i acc)).closes →
      r ∈ acc.closes ∨ ∃ k, r = CloseTarget.hookFrame k := by
  intro n
  induction n with
  | zero => intro i acc r h; exact Or.inl h
  | succ n ih =>
    intro i acc r h
    rw [runHookLoop] at h
    by_cases hth : encodeThrows fa i = true
    · rw [if_pos hth] at h
      exact Or.inl h
    · rw [if_neg hth] at h
      rcases ih (i + 1) _ r h with hin | hex
      · rcases List.mem_append.mp hin with h1 | h2
        · exact Or.inl h1
        · simp only [List.mem_singleton] at h2
          exact Or.inr ⟨i, h2⟩
      · exact Or.inr hex

/-- any release recorded by the original-frame loop beyond its starting
accumulator targets a newFrame, a bitmap or a decoded frame. -/
theorem runOriginalLoop_closes_shape (o : ProcessingOptions) (fa : Option ℕ)
    (ctx : Bool) :
    ∀ (frames : List DecodedFrame) (j k : ℕ) (acc : LoopAcc) (r : CloseTarget),
      r ∈ (accOf (runOriginalLoop o fa ctx frames j k acc)).closes →
      r ∈ acc.closes ∨ (∃ i, r = CloseTarget.newFrame i) ∨
        (∃ i, r = CloseTarget.bitmap i) ∨ (∃ i, r = CloseTarget.decodedFrame i) := by
  intro frames
  induction frames with
  | nil => intro j k acc r h; exact Or.inl h
  | cons f rest ih =>
    intro j k acc r h
    rw [runOriginalLoop] at h
    by_cases hctx : ctx = true
    · rw [if_pos hctx] at h
      by_cases hth : encodeThrows fa k = true
      · rw [if_pos hth] at h
        exact Or.inl h
      · rw [if_neg hth] at h
        rcases ih _ _ _ r h with hin | hex
        · rcases List.mem_append.mp hin with h1 | h2
          · exact Or.inl h1
          · simp only [List.mem_cons, List.mem_singleton, List.not_mem_nil,
              or_false] at h2
            rcases h2 with h2 | h2 | h2
            · exact Or.inr (Or.inl ⟨j, h2⟩)
            · exact Or.inr (Or.inr (Or.inl ⟨j, h2⟩))
            · exact Or.inr (Or.inr (Or.inr ⟨j, h2⟩))
        · exact Or.inr hex
    · rw [if_neg hctx] at h
      rcases ih _ _ _ r h with hin | hex
      · rcases List.mem_append.mp hin with h1 | h2
        · exact Or.inl h1
        · simp only [List.mem_singleton] at h2
          exact Or.inr (Or.inr (Or.inr ⟨j, h2⟩))
      · exact Or.inr hex

/-- every release call recorded by any run targets a frame object: no
branch of processVideo ever performs a successful close of the decoder
or encoder handle (the only decoder close the code attempts, at line
858, throws because the decoder is already fault-closed, and the
encoder close at line 859 is never reached). -/
theorem processVideoRun_closes_frames_only (o : ProcessingOptions) (env : PipelineEnv) :
    ∀ r ∈ (processVideoRun o env).closes,
      (∃ k, r = CloseTarget.hookFrame k) ∨ (∃ k, r = CloseTarget.newFrame k) ∨
      (∃ k, r = CloseTarget.bitmap k) ∨ (∃ k, r = CloseTarget.decodedFrame k) := by
  intro r hr
  unfold processVideoRun at hr
  split at hr
  · simp at hr
  · split at hr
    · simp at hr
    · split at hr
      · simp at hr
      · split at hr
        next acc heq =>
          have h1 := runHookLoop_closes_shape o env.encoderFaultAt
            (hookFrameCount o).toNat 0 ⟨[], []⟩ r (by rw [heq]; exact hr)
          rcases h1 with h1 | hex
          · simp at h1
          · exact Or.inl hex
        next acc heq =>
          split at hr
          next acc2 heq2 =>
            have h2 := runOriginalLoop_closes_shape o env.encoderFaultAt
              env.ctxAvailable env.decodedFrames 0 (hookFrameCount o).toNat acc r
              (by rw [heq2]; exact hr)
            rcases h2 with h2 | hex
            · have h1 := runHookLoop_closes_shape o env.encoderFaultAt
                (hookFrameCount o).toNat 0 ⟨[], []⟩ r (by rw [heq]; exact h2)
              rcases h1 with h1 | hex1
              · simp at h1
              · exact Or.inl hex1
            · exact Or.inr hex
          next acc2 heq2 =>
            rw [extractAudio_eq_none] at hr
            have h2 := runOriginalLoop_closes_shape o env.encoderFaultAt
              env.ctxAvailable env.decodedFrames 0 (hookFrameCount o).toNat acc r
              (by rw [heq2]; exact hr)
            rcases h2 with h2 | hex
            · have h1 := runHookLoop_closes_shape o env.encoderFaultAt
                (hookFrameCount o).toNat 0 ⟨[], []⟩ r (by rw [heq]; exact h2)
              rcases h1 with h1 | hex1
              · simp at h1
              · exact Or.inl hex1
            · exact Or.inr hex

/-- a hook loop whose first encode call already throws releases
nothing. -/
theorem runHookLoop_fault_at_start (o : ProcessingOptions) (k i : ℕ) (acc : LoopAcc)
    (n : ℕ) (h0 : 0 < n) (hth : k ≤ i) :
    runHookLoop o (some k) n i acc = Except.error acc := by
  cases n with
  | zero => omega
  | succ n =>
    rw [runHookLoop, if_pos (show encodeThrows (some k) i = true by
      simp [encodeThrows, hth])]

/-- a run whose encoder throws on the very first encode call rejects
with nothing submitted and nothing released. -/
theorem processVideoRun_first_encode_fault (o : ProcessingOptions) (env : PipelineEnv)
    (m : String) (hs : env.webCodecsSupported = true)
    (him : env.imageLoad = Except.ok ()) (hf : env.decoderFault = some m)
    (he : env.encoderFaultAt = some 0) (hcnt : 0 < (hookFrameCount o).toNat) :
    processVideoRun o env =
      { outcome := RunOutcome.rejected ENCODE_THROW_MSG
      , decoderConfig :=
          some (decoderConfigFor env.videoWidth env.videoHeight env.mp4Info)
      , decodeAttempted := true
      , submissions := [], closes := [], audioData := none
      , errorRef := some ENCODE_THROW_MSG } := by
  unfold processVideoRun
  simp only [hs, him, hf, he, Bool.true_eq_false, if_false,
    runHookLoop_fault_at_start o 0 0 ⟨[], []⟩ _ hcnt (le_refl 0)]

/-- C7: the claim says every frame and both codec handles are released
on every exit path.  Here a rejecting run (first encode call throws)
whose trace contains no release call at all, although a decoded frame
was delivered and the decoder and encoder are open. -/
theorem C7_counterexample :
    leakEnv.decodedFrames.length = 1 ∧
    (processVideoRun DEFAULT_OPTIONS leakEnv).outcome =
      RunOutcome.rejected ENCODE_THROW_MSG ∧
    (processVideoRun DEFAULT_OPTIONS leakEnv).closes = [] := by
  have hcnt : 0 < (hookFrameCount DEFAULT_OPTIONS).toNat := by
    rw [hookFrameCount_default]; decide
  have h := processVideoRun_first_encode_fault DEFAULT_OPTIONS leakEnv "fault simulé"
    rfl rfl rfl rfl hcnt
  rw [h]
  exact ⟨rfl, rfl, rfl⟩

/-- C7 (amended): release discipline holds for the frame objects of the
loops only: in a run that completes both loops, every hook frame and
every per-frame newFrame, bitmap and decoded frame is closed exactly
once; but the codec handles are never successfully closed on any path —
the explicit decoder close throws on the fault-closed decoder (which
also makes the run reject at cleanup), the encoder close is never
reached, and the catch block closes nothing. -/
theorem C7_release_accounting (o : ProcessingOptions) (env : PipelineEnv) (m : String)
    (hs : env.webCodecsSupported = true) (him : env.imageLoad = Except.ok ())
    (hf : env.decoderFault = some m) (he : env.encoderFaultAt = none)
    (hctx : env.ctxAvailable = true) :
    (processVideoRun o env).closes = loopCloses o env.decodedFrames.length ∧
    (processVideoRun o env).closes.Nodup ∧
    (∀ r ∈ (processVideoRun o env).closes, (processVideoRun o env).closes.count r = 1) ∧
    (∀ i, i < (hookFrameCount o).toNat →
      CloseTarget.hookFrame i ∈ (processVideoRun o env).closes) ∧
    (∀ j, j < env.decodedFrames.length →
      CloseTarget.newFrame j ∈ (processVideoRun o env).closes ∧
      CloseTarget.bitmap j ∈ (processVideoRun o env).closes ∧
      CloseTarget.decodedFrame j ∈ (processVideoRun o env).closes) ∧
    (processVideoRun o env).outcome = RunOutcome.rejected DECODER_CLOSE_THROW_MSG ∧
    (∀ (o2 : ProcessingOptions) (env2 : PipelineEnv),
      CloseTarget.decoder ∉ (processVideoRun o2 env2).closes ∧
      CloseTarget.encoder ∉ (processVideoRun o2 env2).closes) := by
  have hrun := processVideoRun_past_wait o env m hs him hf he hctx
  rw [hrun]
  refine ⟨rfl, loopCloses_nodup o _, ?_, ?_, ?_, rfl, ?_⟩
  · intro r hr
    exact List.count_eq_one_of_mem (loopCloses_nodup o _) hr
  · intro i hi
    unfold loopCloses
    exact List.mem_append.mpr
      (Or.inl (List.mem_map_of_mem _ (List.mem_range.mpr hi)))
  · intro j hj
    unfold loopCloses
    refine ⟨?_, ?_, ?_⟩ <;>
      exact List.mem_append.mpr (Or.inr
        ((mem_originalCloses _ 0 _).mpr ⟨j, by omega, by omega, by simp⟩))
  · intro o2 env2
    constructor <;>
    · intro hmem
      rcases processVideoRun_closes_frames_only o2 env2 _ hmem with
        ⟨k, hk⟩ | ⟨k, hk⟩ | ⟨k, hk⟩ | ⟨k, hk⟩ <;> simp at hk

/-- C7 witness: the amended statement at the concrete run with one
decoded frame that completes both loops. -/
theorem C7_release_accounting_witness :
    (processVideoRun DEFAULT_OPTIONS decoderFaultEnv).closes =
      loopCloses DEFAULT_OPTIONS 1 ∧
    CloseTarget.decodedFrame 0 ∈ (processVideoRun DEFAULT_OPTIONS decoderFaultEnv).closes ∧
    (processVideoRun DEFAULT_OPTIONS decoderFaultEnv).closes.count
      (CloseTarget.decodedFrame 0) = 1 ∧
    CloseTarget.encoder ∉ (processVideoRun DEFAULT_OPTIONS decoderFaultEnv).closes := by
  have h := C7_release_accounting DEFAULT_OPTIONS decoderFaultEnv "fault simulé"
    rfl rfl rfl rfl rfl
  have hj := h.2.2.2.2.1 0 (by decide)
  exact ⟨h.1, hj.2.2, h.2.2.1 _ hj.2.2,
    (h.2.2.2.2.2.2 DEFAULT_OPTIONS decoderFaultEnv).2⟩

/-- C3 witness: the amended statement at the concrete AVC-free
container. -/
theorem C3_parse_error_swallowed_witness :
    avcDescriptionMissingMsg = avcDescriptionMissingMsg ∧
    (decoderConfigFor 1280 720 noAvcInfo).description = none ∧
    (processVideoRun DEFAULT_OPTIONS noAvcEnv).decoderConfig =
      some { codec := "avc1.4d401f", codedWidth := 1280, codedHeight := 720,
             description := none } ∧
    (processVideoRun DEFAULT_OPTIONS noAvcEnv).decodeAttempted = true :=
  C3_parse_error_swallowed noAvcInfo 1280 720 DEFAULT_OPTIONS noAvcEnv
    avcDescriptionMissingMsg rfl rfl rfl rfl rfl rfl

end EasyHook
